import Mathlib

/-!
# Verification of the PowerSaver trade-safety core

Shallow embedding, in Lean 4, of the safety-critical parts of the
PowerSaver trading system:

* `FailSafeManager`, `HealthMonitor` (src/utils/reliability_manager.py)
* `RiskManager` (src/risk_management/risk_manager.py)
* `ProfitGuard` / `RealTimeProfitCalculator` (src/utils/profit_verifier.py)
* `ProfitVerifier` (src/utils/profit_verification.py)
* `ConsensusProtection` (src/utils/safety_system.py)

Python floats are modelled as rationals (`ℚ`), Python ints as `ℤ`/`ℕ`,
wall-clock readings (`time.time()`) as explicit `now : ℚ` parameters,
and methods that mutate `self` as functions from state to state.
Logging calls are ignored (they do not affect state or results).
-/

namespace PowerSaver

/-! ## FailSafeManager (src/utils/reliability_manager.py, lines 238-304) -/

/-- State of `FailSafeManager`.  Field names follow the Python attributes
set in `FailSafeManager.__init__`. -/
structure FailSafeState where
  is_emergency_stopped : Bool
  trading_enabled : Bool
  error_count : ℕ
  error_window : ℚ
  max_errors : ℕ
  last_error_time : ℚ
  error_history : List ℚ
  max_daily_loss : ℚ
  daily_loss : ℚ
  max_concurrent_trades : ℕ
  active_trades : ℕ
  deriving Repr, DecidableEq

/-- `FailSafeManager.__init__`: the initial state with the hard-coded
defaults (`error_window=3600`, `max_errors=10`, `max_daily_loss=10000`,
`max_concurrent_trades=5`). -/
def FailSafeState.init : FailSafeState :=
  { is_emergency_stopped := false
    trading_enabled := true
    error_count := 0
    error_window := 3600
    max_errors := 10
    last_error_time := 0
    error_history := []
    max_daily_loss := 10000
    daily_loss := 0
    max_concurrent_trades := 5
    active_trades := 0 }

/-- `FailSafeManager._trigger_emergency_stop`: sets both flags when not
already stopped (the `reason` argument is only logged). -/
def triggerEmergencyStop (s : FailSafeState) : FailSafeState :=
  if s.is_emergency_stopped then s
  else { s with is_emergency_stopped := true, trading_enabled := false }

/-- `FailSafeManager.record_error` at wall-clock time `now` (the
`error_type`/`message` arguments are only logged): prune the error history
to the sliding window, append the current time, and trigger the emergency
stop when the windowed count reaches `max_errors`. -/
def recordError (now : ℚ) (s : FailSafeState) : FailSafeState :=
  let hist := (s.error_history.filter (fun t => now - t < s.error_window)) ++ [now]
  let s1 := { s with error_history := hist, error_count := hist.length,
                     last_error_time := now }
  if s1.max_errors ≤ s1.error_count then
    triggerEmergencyStop
      s1
  else s1

/-- `FailSafeManager.check_trading_allowed`.  The Python reason strings
interpolate numbers with f-strings; they are rebuilt here by
concatenation. -/
def checkTradingAllowed (s : FailSafeState) : Bool × String :=
  if s.is_emergency_stopped then (false, "System in emergency stop")
  else if !s.trading_enabled then (false, "Trading disabled")
  else if s.max_concurrent_trades ≤ s.active_trades then
    (false, "Max concurrent trades (" ++ toString s.max_concurrent_trades ++ ") reached")
  else if s.max_daily_loss ≤ s.daily_loss then
    (false, "Daily loss limit reached: $" ++ toString s.daily_loss)
  else (true, "Trading allowed")

/-- `FailSafeManager.record_trade`: count the trade as active, add the
absolute value of a negative profit to `daily_loss`, and trigger the
emergency stop once `daily_loss` reaches `max_daily_loss`. -/
def recordTrade (profit : ℚ) (s : FailSafeState) : FailSafeState :=
  let s1 := { s with active_trades := s.active_trades + 1 }
  let s2 := if profit < 0 then { s1 with daily_loss := s1.daily_loss + |profit| } else s1
  if s2.max_daily_loss ≤ s2.daily_loss then
    triggerEmergencyStop
      s2
  else s2

/-- `FailSafeManager.complete_trade`: `max(0, active_trades - 1)`, which is
exactly truncated subtraction on `ℕ`. -/
def completeTrade (s : FailSafeState) : FailSafeState :=
  { s with active_trades := s.active_trades - 1 }

/-- `FailSafeManager.reset_daily_loss`. -/
def resetDailyLoss (s : FailSafeState) : FailSafeState :=
  { s with daily_loss := 0 }

/-- `FailSafeManager.enable_trading`: the only operation that clears
`is_emergency_stopped`. -/
def enableTrading (s : FailSafeState) : FailSafeState :=
  { s with trading_enabled := true, is_emergency_stopped := false }

/-- `FailSafeManager.disable_trading` (the `reason` argument is only
logged). -/
def disableTrading (s : FailSafeState) : FailSafeState :=
  { s with trading_enabled := false }

/-- The public operations of `FailSafeManager` that can change its state,
plus the read-only `check_trading_allowed` query. -/
inductive FailSafeOp where
  | recordErrorOp (now : ℚ)
  | recordTradeOp (profit : ℚ)
  | completeTradeOp
  | resetDailyLossOp
  | enableTradingOp
  | disableTradingOp
  | checkTradingAllowedOp
  deriving Repr, DecidableEq

/-- Effect of each `FailSafeManager` operation on the state
(`check_trading_allowed` reads but does not write). -/
def applyFailSafeOp (op : FailSafeOp) (s : FailSafeState) : FailSafeState :=
  match op with
  | .recordErrorOp now => recordError now s
  | .recordTradeOp p => recordTrade p s
  | .completeTradeOp => completeTrade s
  | .resetDailyLossOp => resetDailyLoss s
  | .enableTradingOp => enableTrading s
  | .disableTradingOp => disableTrading s
  | .checkTradingAllowedOp => s

/-- Feeding a sequence of trade results into a fresh `FailSafeManager`
via `record_trade`. -/
def runTrades (profits : List ℚ) : FailSafeState :=
  profits.foldl (fun s p => recordTrade p s) FailSafeState.init

/-- The loss contributed by one recorded profit: `abs(profit)` for a
negative profit, `0` otherwise (mirrors the branch in `record_trade`). -/
def lossOf (profit : ℚ) : ℚ := if profit < 0 then |profit| else 0

/-- Total accumulated loss over a list of recorded profits. -/
def cumLoss (profits : List ℚ) : ℚ := (profits.map lossOf).sum

lemma lossOf_nonneg (p : ℚ) : 0 ≤ lossOf p := by
  unfold lossOf; split <;> simp [abs_nonneg]

lemma cumLoss_nonneg (ps : List ℚ) : 0 ≤ cumLoss ps := by
  unfold cumLoss
  induction ps with
  | nil => simp
  | cons p ps ih =>
    simp only [List.map_cons, List.sum_cons]
    exact add_nonneg (lossOf_nonneg p) ih

lemma recordTrade_daily_loss (p : ℚ) (s : FailSafeState) :
    (recordTrade p s).daily_loss = s.daily_loss + lossOf p := by
  simp only [recordTrade, triggerEmergencyStop, lossOf]
  split_ifs <;> simp_all

lemma recordTrade_max (p : ℚ) (s : FailSafeState) :
    (recordTrade p s).max_daily_loss = s.max_daily_loss := by
  simp only [recordTrade, triggerEmergencyStop]
  split_ifs <;> simp_all

lemma recordTrade_enabled (p : ℚ) (s : FailSafeState) :
    (recordTrade p s).trading_enabled =
      (s.trading_enabled &&
        (!(decide (s.max_daily_loss ≤ s.daily_loss + lossOf p)) || s.is_emergency_stopped)) := by
  simp only [recordTrade, triggerEmergencyStop, lossOf]
  split_ifs <;> simp_all

lemma recordTrade_stopped (p : ℚ) (s : FailSafeState) :
    (recordTrade p s).is_emergency_stopped =
      (s.is_emergency_stopped || decide (s.max_daily_loss ≤ s.daily_loss + lossOf p)) := by
  simp only [recordTrade, triggerEmergencyStop, lossOf]
  split_ifs <;> simp_all

/-- Folding a list of recorded trade results from an arbitrary state. -/
def runTradesFrom (profits : List ℚ) (s : FailSafeState) : FailSafeState :=
  profits.foldl (fun s p => recordTrade p s) s

lemma runTrades_eq (profits : List ℚ) :
    runTrades profits = runTradesFrom profits FailSafeState.init := rfl

lemma runTradesFrom_spec (ps : List ℚ) (s : FailSafeState)
    (hinv : s.is_emergency_stopped = true → s.trading_enabled = false) :
    (runTradesFrom ps s).daily_loss = s.daily_loss + cumLoss ps ∧
    (runTradesFrom ps s).max_daily_loss = s.max_daily_loss ∧
    ((runTradesFrom ps s).is_emergency_stopped = true ↔
      (s.is_emergency_stopped = true ∨
        (ps ≠ [] ∧ s.max_daily_loss ≤ s.daily_loss + cumLoss ps))) ∧
    ((runTradesFrom ps s).trading_enabled = false ↔
      (s.trading_enabled = false ∨
        (ps ≠ [] ∧ s.max_daily_loss ≤ s.daily_loss + cumLoss ps))) := by
  induction ps generalizing s with
  | nil => simp [runTradesFrom, cumLoss]
  | cons p rest ih =>
    have hstep : runTradesFrom (p :: rest) s = runTradesFrom rest (recordTrade p s) := rfl
    have hcum : cumLoss (p :: rest) = lossOf p + cumLoss rest := by
      simp [cumLoss]
    have hinv2 : (recordTrade p s).is_emergency_stopped = true →
        (recordTrade p s).trading_enabled = false := by
      rw [recordTrade_stopped, recordTrade_enabled]
      intro h
      rcases Bool.or_eq_true_iff.mp h with h1 | h1
      · simp [hinv h1]
      · simp only [of_decide_eq_true h1, decide_True, Bool.not_true, Bool.false_or]
        by_cases hst : s.is_emergency_stopped = true
        · simp [hinv hst]
        · simp [Bool.eq_false_iff.mpr hst]
    obtain ⟨ih1, ih2, ih3, ih4⟩ := ih (recordTrade p s) hinv2
    have hrest_nonneg := cumLoss_nonneg rest
    have hloss_nonneg := lossOf_nonneg p
    refine ⟨?_, ?_, ?_, ?_⟩
    · rw [hstep, ih1, recordTrade_daily_loss, hcum]; ring
    · rw [hstep, ih2, recordTrade_max]
    · rw [hstep, ih3, recordTrade_stopped, recordTrade_daily_loss, recordTrade_max, hcum]
      constructor
      · rintro (h | ⟨-, h⟩)
        · rcases Bool.or_eq_true_iff.mp h with h1 | h1
          · exact Or.inl h1
          · refine Or.inr ⟨by simp, ?_⟩
            have := of_decide_eq_true h1
            linarith
        · exact Or.inr ⟨by simp, by linarith⟩
      · rintro (h | ⟨-, h⟩)
        · exact Or.inl (by simp [h])
        · by_cases hfirst : s.max_daily_loss ≤ s.daily_loss + lossOf p
          · exact Or.inl (by simp [hfirst])
          · rcases List.eq_nil_or_concat rest with hr | hr
            · subst hr
              have h0 : cumLoss ([] : List ℚ) = 0 := by simp [cumLoss]
              exact (hfirst (by rw [h0] at h; linarith)).elim
            · refine Or.inr ⟨?_, by linarith⟩
              rintro rfl
              obtain ⟨l, a, h⟩ := hr
              exact (List.concat_ne_nil a l) h.symm
    · rw [hstep, ih4, recordTrade_enabled, recordTrade_daily_loss, recordTrade_max, hcum]
      constructor
      · rintro (h | ⟨-, h⟩)
        · rcases Bool.and_eq_false_iff.mp h with h1 | h1
          · exact Or.inl h1
          · rcases Bool.or_eq_false_iff.mp h1 with ⟨h2, h3⟩
            simp only [Bool.not_eq_false', decide_eq_true_eq] at h2
            refine Or.inr ⟨by simp, by linarith⟩
        · exact Or.inr ⟨by simp, by linarith⟩
      · rintro (h | ⟨-, h⟩)
        · exact Or.inl (by simp [h])
        · by_cases hfirst : s.max_daily_loss ≤ s.daily_loss + lossOf p
          · by_cases hst : s.is_emergency_stopped = true
            · exact Or.inl (by simp [hinv hst])
            · exact Or.inl (by simp [hfirst, Bool.eq_false_iff.mpr hst])
          · rcases List.eq_nil_or_concat rest with hr | hr
            · subst hr
              have h0 : cumLoss ([] : List ℚ) = 0 := by simp [cumLoss]
              exact (hfirst (by rw [h0] at h; linarith)).elim
            · refine Or.inr ⟨?_, by linarith⟩
              rintro rfl
              obtain ⟨l, a, hr'⟩ := hr
              exact (List.concat_ne_nil a l) hr'.symm

/-- **C1.** Feeding trade results into a fresh `FailSafeManager` via
`record_trade` trips the trading-disabled / emergency-stop flags exactly
when the accumulated daily loss reaches or exceeds `max_daily_loss`
(`$10,000`), and not before; concretely, after losses of `$3,000` and
`$4,000` trading is still allowed, and a further loss of `$3,500`
(total `$10,500`) disables it. -/
theorem record_trade_result_daily_loss_cap (profits : List ℚ) :
    ((runTrades profits).trading_enabled = false ↔ (10000 : ℚ) ≤ cumLoss profits) ∧
    ((runTrades profits).is_emergency_stopped = true ↔ (10000 : ℚ) ≤ cumLoss profits) ∧
    (runTrades profits).daily_loss = cumLoss profits ∧
    checkTradingAllowed (runTrades [-3000, -4000]) = (true, "Trading allowed") ∧
    checkTradingAllowed (runTrades [-3000, -4000, -3500]) =
      (false, "System in emergency stop") := by
  obtain ⟨h1, h2, h3, h4⟩ :=
    runTradesFrom_spec profits FailSafeState.init (by simp [FailSafeState.init])
  have hne : (10000 : ℚ) ≤ cumLoss profits → profits ≠ [] := by
    rintro h rfl
    simp [cumLoss] at h
    linarith
  refine ⟨?_, ?_, ?_, ?_, ?_⟩
  · rw [runTrades_eq, h4]
    simp only [FailSafeState.init]
    constructor
    · rintro (h | ⟨-, h⟩)
      · simp at h
      · linarith
    · intro h
      exact Or.inr ⟨hne h, by linarith⟩
  · rw [runTrades_eq, h3]
    simp only [FailSafeState.init]
    constructor
    · rintro (h | ⟨-, h⟩)
      · simp at h
      · linarith
    · intro h
      exact Or.inr ⟨hne h, by linarith⟩
  · rw [runTrades_eq, h1]
    simp [FailSafeState.init]
  · have hs : runTrades [-3000, -4000] =
        { FailSafeState.init with daily_loss := 7000, active_trades := 2 } := by
      norm_num [runTrades, runTradesFrom, recordTrade, triggerEmergencyStop,
        FailSafeState.init, abs_of_neg]
    rw [hs]
    norm_num [checkTradingAllowed, FailSafeState.init]
  · have hs : runTrades [-3000, -4000, -3500] =
        { FailSafeState.init with is_emergency_stopped := true, trading_enabled := false,
                                  daily_loss := 10500, active_trades := 3 } := by
      norm_num [runTrades, runTradesFrom, recordTrade, triggerEmergencyStop,
        FailSafeState.init, abs_of_neg]
    rw [hs]
    norm_num [checkTradingAllowed, FailSafeState.init]

/-- **C4.** Once `emergency_stopped` is set, `check_trading_allowed` returns
`false` ("System in emergency stop"), and every `FailSafeManager` operation
other than the explicit `enable_trading` call leaves the flag set. -/
theorem emergency_stop_latch (s : FailSafeState) (op : FailSafeOp)
    (hstop : s.is_emergency_stopped = true) (hop : op ≠ .enableTradingOp) :
    (applyFailSafeOp op s).is_emergency_stopped = true ∧
    checkTradingAllowed s = (false, "System in emergency stop") := by
  refine ⟨?_, by simp [checkTradingAllowed, hstop]⟩
  cases op with
  | recordErrorOp now =>
    simp only [applyFailSafeOp, recordError, triggerEmergencyStop]
    split_ifs <;> simp_all
  | recordTradeOp p =>
    simp [applyFailSafeOp, recordTrade_stopped, hstop]
  | completeTradeOp => simpa [applyFailSafeOp, completeTrade] using hstop
  | resetDailyLossOp => simpa [applyFailSafeOp, resetDailyLoss] using hstop
  | enableTradingOp => exact absurd rfl hop
  | disableTradingOp => simpa [applyFailSafeOp, disableTrading] using hstop
  | checkTradingAllowedOp => simpa [applyFailSafeOp] using hstop

/-- Witness for C4: a concretely stopped manager stays stopped across a
`record_trade` call, and its trading check refuses. -/
theorem emergency_stop_latch_witness :
    (applyFailSafeOp (.recordTradeOp (-500)) (triggerEmergencyStop FailSafeState.init)
        ).is_emergency_stopped = true ∧
    checkTradingAllowed (triggerEmergencyStop FailSafeState.init) =
      (false, "System in emergency stop") :=
  emergency_stop_latch (triggerEmergencyStop FailSafeState.init) (.recordTradeOp (-500))
    (by norm_num [triggerEmergencyStop, FailSafeState.init]) (by simp)

/-! ## HealthMonitor (src/utils/reliability_manager.py, lines 54-115) -/

/-- `SystemHealth` enum. -/
inductive SystemHealth where
  | HEALTHY
  | DEGRADED
  | CRITICAL
  | OFFLINE
  deriving Repr, DecidableEq

/-- `HealthCheck` dataclass (the heterogeneous `details` dict is omitted;
no claim reads it). -/
structure HealthCheck where
  check_name : String
  status : String
  last_check : ℚ
  duration_ms : ℚ
  deriving Repr, DecidableEq

/-- The aggregation step of `HealthMonitor.run_health_checks`: from the
list of component check results, count `"critical"` and `"degraded"`
statuses and derive the overall `SystemHealth`. -/
def overallHealth (checks : List HealthCheck) : SystemHealth :=
  let critical_count := (checks.filter (fun c => c.status == "critical")).length
  let degraded_count := (checks.filter (fun c => c.status == "degraded")).length
  if 0 < critical_count then SystemHealth.CRITICAL
  else if 2 < degraded_count then SystemHealth.DEGRADED
  else SystemHealth.HEALTHY

/-- `HealthMonitor.get_health`: the string form of the same rule, with
`"unknown"` when no checks have been stored. -/
def getHealth (checks : List HealthCheck) : String :=
  if checks.isEmpty then "unknown"
  else
    let critical_count := (checks.filter (fun c => c.status == "critical")).length
    let degraded_count := (checks.filter (fun c => c.status == "degraded")).length
    if 0 < critical_count then "critical"
    else if 2 < degraded_count then "degraded"
    else "healthy"

/-- **C7.** The overall health derived by `run_health_checks` /
`get_health` is a pure function of the multiset of component statuses
(invariant under reordering) and follows the rule: CRITICAL when some
check is critical, else DEGRADED when strictly more than two checks are
degraded, else HEALTHY. -/
theorem overall_health_pure_of_statuses (l1 l2 : List HealthCheck) (hperm : l1.Perm l2) :
    overallHealth l1 = overallHealth l2 ∧
    getHealth l1 = getHealth l2 ∧
    (overallHealth l1 = SystemHealth.CRITICAL ↔ ∃ c ∈ l1, c.status = "critical") ∧
    (overallHealth l1 = SystemHealth.DEGRADED ↔
      (¬ ∃ c ∈ l1, c.status = "critical") ∧
        2 < (l1.filter (fun c => c.status == "degraded")).length) ∧
    (overallHealth l1 = SystemHealth.HEALTHY ↔
      (¬ ∃ c ∈ l1, c.status = "critical") ∧
        (l1.filter (fun c => c.status == "degraded")).length ≤ 2) := by
  have hcrit : (l1.filter (fun c => c.status == "critical")).length =
      (l2.filter (fun c => c.status == "critical")).length :=
    (hperm.filter _).length_eq
  have hdeg : (l1.filter (fun c => c.status == "degraded")).length =
      (l2.filter (fun c => c.status == "degraded")).length :=
    (hperm.filter _).length_eq
  have hcrit_mem : 0 < (l1.filter (fun c => c.status == "critical")).length ↔
      ∃ c ∈ l1, c.status = "critical" := by
    rw [List.length_pos_iff_exists_mem]
    constructor
    · rintro ⟨c, hc⟩
      rw [List.mem_filter] at hc
      exact ⟨c, hc.1, by simpa using hc.2⟩
    · rintro ⟨c, hc, hs⟩
      exact ⟨c, List.mem_filter.mpr ⟨hc, by simpa using hs⟩⟩
  have hemp : l1.isEmpty = l2.isEmpty := by
    have hlen := hperm.length_eq
    rcases l1 with _ | ⟨a, t⟩ <;> rcases l2 with _ | ⟨b, u⟩ <;> simp_all
  refine ⟨?_, ?_, ?_, ?_, ?_⟩
  · simp only [overallHealth, hcrit, hdeg]
  · simp only [getHealth, hcrit, hdeg, hemp]
  · simp only [overallHealth]
    split_ifs with h1 h2 <;> simp_all [hcrit_mem]
  · simp only [overallHealth]
    split_ifs with h1 h2 <;> simp_all [hcrit_mem]
  · simp only [overallHealth]
    split_ifs with h1 h2 <;> simp_all [hcrit_mem]

/-- Witness for C7: swapping a critical CPU check and a degraded memory
check leaves the derived health unchanged, and the rule yields CRITICAL. -/
theorem overall_health_pure_of_statuses_witness :
    overallHealth [⟨"CPU Usage", "critical", 0, 1⟩, ⟨"Memory Usage", "degraded", 0, 1⟩] =
      overallHealth [⟨"Memory Usage", "degraded", 0, 1⟩, ⟨"CPU Usage", "critical", 0, 1⟩] ∧
    getHealth [⟨"CPU Usage", "critical", 0, 1⟩, ⟨"Memory Usage", "degraded", 0, 1⟩] =
      getHealth [⟨"Memory Usage", "degraded", 0, 1⟩, ⟨"CPU Usage", "critical", 0, 1⟩] ∧
    (overallHealth [⟨"CPU Usage", "critical", 0, 1⟩, ⟨"Memory Usage", "degraded", 0, 1⟩] =
        SystemHealth.CRITICAL ↔
      ∃ c ∈ [(⟨"CPU Usage", "critical", 0, 1⟩ : HealthCheck),
             ⟨"Memory Usage", "degraded", 0, 1⟩], c.status = "critical") ∧
    (overallHealth [⟨"CPU Usage", "critical", 0, 1⟩, ⟨"Memory Usage", "degraded", 0, 1⟩] =
        SystemHealth.DEGRADED ↔
      (¬ ∃ c ∈ [(⟨"CPU Usage", "critical", 0, 1⟩ : HealthCheck),
                ⟨"Memory Usage", "degraded", 0, 1⟩], c.status = "critical") ∧
        2 < ([(⟨"CPU Usage", "critical", 0, 1⟩ : HealthCheck),
              ⟨"Memory Usage", "degraded", 0, 1⟩].filter
                (fun c => c.status == "degraded")).length) ∧
    (overallHealth [⟨"CPU Usage", "critical", 0, 1⟩, ⟨"Memory Usage", "degraded", 0, 1⟩] =
        SystemHealth.HEALTHY ↔
      (¬ ∃ c ∈ [(⟨"CPU Usage", "critical", 0, 1⟩ : HealthCheck),
                ⟨"Memory Usage", "degraded", 0, 1⟩], c.status = "critical") ∧
        ([(⟨"CPU Usage", "critical", 0, 1⟩ : HealthCheck),
          ⟨"Memory Usage", "degraded", 0, 1⟩].filter
            (fun c => c.status == "degraded")).length ≤ 2) :=
  overall_health_pure_of_statuses
    [⟨"CPU Usage", "critical", 0, 1⟩, ⟨"Memory Usage", "degraded", 0, 1⟩]
    [⟨"Memory Usage", "degraded", 0, 1⟩, ⟨"CPU Usage", "critical", 0, 1⟩]
    (List.Perm.swap (⟨"Memory Usage", "degraded", 0, 1⟩ : HealthCheck)
      (⟨"CPU Usage", "critical", 0, 1⟩ : HealthCheck) [])

/-! ## C3: the error-budget circuit breaker (`record_error`) -/

/-- Folding a sequence of `record_error` calls (one per timestamp) from an
arbitrary state. -/
def runErrorsFrom (times : List ℚ) (s : FailSafeState) : FailSafeState :=
  times.foldl (fun s t => recordError t s) s

/-- Recording errors at the given wall-clock times into a fresh
`FailSafeManager`. -/
def runErrors (times : List ℚ) : FailSafeState :=
  runErrorsFrom times FailSafeState.init

lemma recordError_hist (t : ℚ) (s : FailSafeState) :
    (recordError t s).error_history =
      s.error_history.filter (fun u => t - u < s.error_window) ++ [t] := by
  simp only [recordError, triggerEmergencyStop]
  split_ifs <;> simp_all

lemma recordError_window (t : ℚ) (s : FailSafeState) :
    (recordError t s).error_window = s.error_window := by
  simp only [recordError, triggerEmergencyStop]
  split_ifs <;> simp_all

lemma recordError_max_errors (t : ℚ) (s : FailSafeState) :
    (recordError t s).max_errors = s.max_errors := by
  simp only [recordError, triggerEmergencyStop]
  split_ifs <;> simp_all

lemma recordError_stopped (t : ℚ) (s : FailSafeState) :
    (recordError t s).is_emergency_stopped =
      (s.is_emergency_stopped ||
        decide (s.max_errors ≤
          (s.error_history.filter (fun u => t - u < s.error_window) ++ [t]).length)) := by
  simp only [recordError, triggerEmergencyStop]
  split_ifs <;> simp_all

lemma runErrorsFrom_all_in_window (times : List ℚ) :
    ∀ (s : FailSafeState),
      (∀ t ∈ times, ∀ u ∈ s.error_history, t - u < s.error_window) →
      (∀ t ∈ times, ∀ u ∈ times, t - u < s.error_window) →
      (runErrorsFrom times s).error_history = s.error_history ++ times ∧
      (s.is_emergency_stopped = true →
        (runErrorsFrom times s).is_emergency_stopped = true) ∧
      (times ≠ [] → s.max_errors ≤ s.error_history.length + times.length →
        (runErrorsFrom times s).is_emergency_stopped = true) := by
  induction times with
  | nil => intro s _ _; exact ⟨by simp [runErrorsFrom], fun h => by simpa [runErrorsFrom], by simp⟩
  | cons t rest ih =>
    intro s hold hpair
    have hw := recordError_window t s
    have hm := recordError_max_errors t s
    have hkeep : s.error_history.filter (fun u => t - u < s.error_window) =
        s.error_history := by
      apply List.filter_eq_self.mpr
      intro u hu
      exact decide_eq_true (hold t (by simp) u hu)
    have hhist : (recordError t s).error_history = s.error_history ++ [t] := by
      rw [recordError_hist, hkeep]
    have hstep : runErrorsFrom (t :: rest) s = runErrorsFrom rest (recordError t s) := rfl
    have hold2 : ∀ t2 ∈ rest, ∀ u ∈ (recordError t s).error_history,
        t2 - u < (recordError t s).error_window := by
      intro t2 ht2 u hu
      rw [hw]
      rw [hhist] at hu
      rcases List.mem_append.mp hu with hu | hu
      · exact hold t2 (by simp [ht2]) u hu
      · have : u = t := by simpa using hu
        subst this
        exact hpair t2 (by simp [ht2]) u (by simp)
    have hpair2 : ∀ t2 ∈ rest, ∀ u ∈ rest, t2 - u < (recordError t s).error_window := by
      intro t2 ht2 u hu
      rw [hw]
      exact hpair t2 (by simp [ht2]) u (by simp [hu])
    obtain ⟨ih1, ih2, ih3⟩ := ih (recordError t s) hold2 hpair2
    refine ⟨?_, ?_, ?_⟩
    · rw [hstep, ih1, hhist]
      simp
    · intro h
      rw [hstep]
      apply ih2
      rw [recordError_stopped, h]
      simp
    · intro _ hcount
      rw [hstep]
      by_cases hfirst : s.max_errors ≤ s.error_history.length + 1
      · apply ih2
        rw [recordError_stopped]
        simp only [Bool.or_eq_true, decide_eq_true_eq]
        right
        rw [hkeep]
        simpa using hfirst
      · have hrest_ne : rest ≠ [] := by
          rintro rfl
          simp at hcount
          omega
        apply ih3 hrest_ne
        rw [hm, hhist]
        simp only [List.length_append, List.length_cons, List.length_singleton] at hcount ⊢
        omega

lemma runErrorsFrom_sparse (times : List ℚ) :
    ∀ (q : List ℚ) (s : FailSafeState),
      s.error_window = 3600 → s.max_errors = 10 →
      s.is_emergency_stopped = false →
      s.error_history.Sublist q →
      (∀ q2 t, (q2 ++ [t]) <+: (q ++ times) →
        ((q2 ++ [t]).filter (fun u => t - u < 3600)).length < 10) →
      (runErrorsFrom times s).is_emergency_stopped = false := by
  induction times with
  | nil => intro q s _ _ hstop _ _; simpa [runErrorsFrom]
  | cons t rest ih =>
    intro q s hw hm hstop hsub hcnt
    have hstep : runErrorsFrom (t :: rest) s = runErrorsFrom rest (recordError t s) := rfl
    have hsub2 : ((recordError t s).error_history).Sublist (q ++ [t]) := by
      rw [recordError_hist, hw]
      exact List.Sublist.append ((hsub.filter _).trans (List.filter_sublist q))
        (List.Sublist.refl [t])
    have hsub3 : ((recordError t s).error_history).Sublist
        ((q ++ [t]).filter (fun u => t - u < 3600)) := by
      rw [recordError_hist, hw, List.filter_append]
      apply List.Sublist.append (hsub.filter _)
      simp
    have hlt : ((recordError t s).error_history).length < 10 := by
      have h1 := hsub3.length_le
      have h2 := hcnt q t ⟨rest, by simp⟩
      omega
    have hstop2 : (recordError t s).is_emergency_stopped = false := by
      rw [recordError_stopped, hstop]
      simp only [Bool.false_or, decide_eq_false_iff_not]
      rw [← recordError_hist]
      omega
    exact ih (q ++ [t]) (recordError t s) (by rw [recordError_window, hw])
      (by rw [recordError_max_errors, hm]) hstop2 hsub2
      (by intro q2 t2 hpre; exact hcnt q2 t2 (by simpa using hpre))

/-- **C3.** From a fresh `FailSafeManager` (window `3600`s, limit `10`):
recording at least ten errors whose timestamps all lie within one window
sets `emergency_stopped`; recording errors so spread out that the window
ending at each recording time holds fewer than ten of them leaves the
flag clear. -/
theorem record_error_emergency_stop (times : List ℚ) :
    ((∀ t ∈ times, ∀ u ∈ times, t - u < 3600) → 10 ≤ times.length →
      (runErrors times).is_emergency_stopped = true) ∧
    ((∀ i, i < times.length →
        ((times.take (i + 1)).filter (fun u => times.getD i 0 - u < 3600)).length < 10) →
      (runErrors times).is_emergency_stopped = false) := by
  constructor
  · intro hin hlen
    have hne : times ≠ [] := by
      rintro rfl
      simp at hlen
    obtain ⟨-, -, h3⟩ := runErrorsFrom_all_in_window times FailSafeState.init
      (by simp [FailSafeState.init]) (by simpa [FailSafeState.init] using hin)
    exact h3 hne (by simpa [FailSafeState.init] using hlen)
  · intro hcnt
    apply runErrorsFrom_sparse times [] FailSafeState.init rfl rfl rfl
      (by simp [FailSafeState.init])
    simp only [List.nil_append]
    intro q t hpre
    obtain ⟨r, hr⟩ := hpre
    have hlen : q.length < times.length := by
      rw [← hr]
      simp only [List.length_append, List.length_cons, List.length_nil]
      omega
    have htake : times.take (q.length + 1) = q ++ [t] := by
      rw [← hr, List.take_append_of_le_length (by simp)]
      simp
    have hget : times.getD q.length 0 = t := by
      rw [← hr]
      rw [List.getD_eq_getElem _ _ (by rw [hr]; exact hlen)]
      rw [List.getElem_append_left (by simp)]
      simp [List.getElem_concat_length]
    have := hcnt q.length hlen
    rw [htake, hget] at this
    exact this

/-- Witness for C3: ten errors at the same instant trip the stop; ten
errors spaced a full hour apart do not. -/
theorem record_error_emergency_stop_witness :
    (runErrors (List.replicate 10 (0 : ℚ))).is_emergency_stopped = true ∧
    (runErrors [0, 3600, 7200, 10800, 14400, 18000, 21600, 25200, 28800,
        32400]).is_emergency_stopped = false := by
  constructor
  · exact (record_error_emergency_stop (List.replicate 10 (0 : ℚ))).1
      (by intro t ht u hu; simp_all [List.eq_of_mem_replicate ht, List.eq_of_mem_replicate hu])
      (by simp)
  · apply (record_error_emergency_stop _).2
    intro i hi
    simp only [List.length_cons, List.length_nil] at hi
    interval_cases i <;> norm_num [List.take, List.filter, List.getD]

/-! ## RiskManager (src/risk_management/risk_manager.py) -/

/-- `RiskLevel` enum. -/
inductive RiskLevel where
  | LOW
  | MEDIUM
  | HIGH
  | CRITICAL
  deriving Repr, DecidableEq

/-- `RiskAlert` dataclass.  The `alert_id` and `timestamp` fields are
derived from `time.time()` at creation and read by no claim; they are
omitted here. -/
structure RiskAlert where
  risk_level : RiskLevel
  category : String
  message : String
  action_taken : String
  deriving Repr, DecidableEq

/-- `Position` dataclass. -/
structure Position where
  token : String
  amount : ℚ
  entry_price : ℚ
  current_price : ℚ
  pnl : ℚ
  pnl_percentage : ℚ
  deriving Repr, DecidableEq

/-- Mutable attributes of `RiskManager` (config values and counters set in
`RiskManager.__init__`). -/
structure RiskManagerState where
  max_loan_amount : ℚ
  max_daily_loss : ℚ
  max_position_size : ℚ
  min_profit_threshold : ℚ
  max_concurrent_trades : ℕ
  current_loan_amount : ℚ
  daily_loss : ℚ
  daily_profit : ℚ
  active_positions : List Position
  risk_alerts : List RiskAlert
  is_trading_allowed : Bool
  total_trades : ℕ
  successful_trades : ℕ
  failed_trades : ℕ
  deriving Repr, DecidableEq

/-- `RiskManager.__init__` with the documented config defaults
(`max_loan_amount=100000`, `max_daily_loss=10000`, `max_position_size=50000`,
`min_profit_threshold=0.005`, `max_concurrent_trades=3`). -/
def RiskManagerState.init : RiskManagerState :=
  { max_loan_amount := 100000
    max_daily_loss := 10000
    max_position_size := 50000
    min_profit_threshold := 5 / 1000
    max_concurrent_trades := 3
    current_loan_amount := 0
    daily_loss := 0
    daily_profit := 0
    active_positions := []
    risk_alerts := []
    is_trading_allowed := true
    total_trades := 0
    successful_trades := 0
    failed_trades := 0 }

/-- `RiskManager._create_alert`: append the alert and, for a CRITICAL
level, auto-disable trading. -/
def createAlert (level : RiskLevel) (category message action : String)
    (s : RiskManagerState) : RiskManagerState :=
  let s1 := { s with risk_alerts := s.risk_alerts ++ [⟨level, category, message, action⟩] }
  if level = RiskLevel.CRITICAL then { s1 with is_trading_allowed := false } else s1

/-- `RiskManager.validate_loan_request`: returns the (possibly mutated)
state together with the `(bool, reason)` pair the Python method returns.
The `token` argument is unused by the source method. -/
def validateLoanRequest (s : RiskManagerState) (amount : ℚ) :
    RiskManagerState × Bool × String :=
  if !s.is_trading_allowed then
    (s, false, "Trading temporarily disabled due to risk limits")
  else if s.max_loan_amount < amount then
    (createAlert RiskLevel.HIGH "LOAN_LIMIT"
      ("Loan amount " ++ toString amount ++ " exceeds maximum " ++
        toString s.max_loan_amount) "None" s,
     false, "Loan amount exceeds maximum limit")
  else if s.max_daily_loss < s.daily_loss then
    (createAlert RiskLevel.CRITICAL "DAILY_LIMIT"
      ("Daily loss limit reached: " ++ toString s.daily_loss) "None" s,
     false, "Daily loss limit exceeded")
  else if s.max_concurrent_trades ≤ s.active_positions.length then
    (s, false, "Maximum concurrent trades (" ++ toString s.max_concurrent_trades
      ++ ") reached")
  else (s, true, "Loan request approved")

/-- `RiskManager.record_trade_result`. -/
def recordTradeResult (successful : Bool) (profit : ℚ) (s : RiskManagerState) :
    RiskManagerState :=
  let s1 := { s with total_trades := s.total_trades + 1 }
  if successful then
    { s1 with successful_trades := s1.successful_trades + 1,
              daily_profit := s1.daily_profit + profit }
  else
    { s1 with failed_trades := s1.failed_trades + 1,
              daily_loss := s1.daily_loss + |profit| }

/-- **C9 (counterexample).** `RiskManager.validate_loan_request` is not a
pure function of the state: with `daily_loss` over the cap, the first call
answers "Daily loss limit exceeded" and, via a CRITICAL alert, flips
`is_trading_allowed` to `false`, so the second call on the state the first
call left behind answers with a different reason. -/
theorem validate_loan_request_not_pure :
    (validateLoanRequest (recordTradeResult false (-10001) RiskManagerState.init)
        50000).2.2 = "Daily loss limit exceeded" ∧
    (validateLoanRequest
        (validateLoanRequest (recordTradeResult false (-10001) RiskManagerState.init)
          50000).1 50000).2.2 = "Trading temporarily disabled due to risk limits" ∧
    (validateLoanRequest (recordTradeResult false (-10001) RiskManagerState.init)
        50000).2.2 ≠
      (validateLoanRequest
        (validateLoanRequest (recordTradeResult false (-10001) RiskManagerState.init)
          50000).1 50000).2.2 ∧
    (recordTradeResult false (-10001) RiskManagerState.init).is_trading_allowed = true ∧
    (validateLoanRequest (recordTradeResult false (-10001) RiskManagerState.init)
        50000).1.is_trading_allowed = false := by
  have hs : recordTradeResult false (-10001) RiskManagerState.init =
      { RiskManagerState.init with daily_loss := 10001, failed_trades := 1,
                                   total_trades := 1 } := by
    norm_num [recordTradeResult, RiskManagerState.init, abs_of_neg]
  rw [hs]
  refine ⟨?_, ?_, ?_, by norm_num [RiskManagerState.init], ?_⟩
  · norm_num [validateLoanRequest, createAlert, RiskManagerState.init]
  · norm_num [validateLoanRequest, createAlert, RiskManagerState.init]
  · norm_num [validateLoanRequest, createAlert, RiskManagerState.init]
    decide
  · norm_num [validateLoanRequest, createAlert, RiskManagerState.init]

/-- **C9 (amended).** The approval boolean of
`RiskManager.validate_loan_request` is stable: a second call with the same
amount, on the state the first call left behind, returns the same boolean
(the reason string can change after the daily-loss branch, which disables
trading as a side effect). -/
theorem validate_loan_request_bool_stable (s : RiskManagerState) (amount : ℚ) :
    (validateLoanRequest (validateLoanRequest s amount).1 amount).2.1 =
      (validateLoanRequest s amount).2.1 := by
  by_cases ht : s.is_trading_allowed = true
  · by_cases h2 : s.max_loan_amount < amount
    · simp [validateLoanRequest, createAlert, ht, h2]
    · by_cases h3 : s.max_daily_loss < s.daily_loss
      · simp [validateLoanRequest, createAlert, ht, h2, h3]
      · by_cases h4 : s.max_concurrent_trades ≤ s.active_positions.length
        · simp [validateLoanRequest, ht, h2, h3, h4]
        · simp [validateLoanRequest, ht, h2, h3, h4]
  · simp [validateLoanRequest, ht]

/-! ## ProfitGuard / RealTimeProfitCalculator (src/utils/profit_verifier.py) -/

/-- Associativity of string concatenation (used to exhibit substrings). -/
lemma string_append_assoc (a b c : String) : (a ++ b) ++ c = a ++ (b ++ c) := by
  rcases a with ⟨la⟩
  rcases b with ⟨lb⟩
  rcases c with ⟨lc⟩
  show String.mk ((la ++ lb) ++ lc) = String.mk (la ++ (lb ++ lc))
  rw [List.append_assoc]

/-- A two-decimal rendering of a rational, standing in for CPython's
`f"{x:.2f}"` float formatting (the claims only inspect the fixed words of
the surrounding message, never the digits). -/
def pyFormat2f (q : ℚ) : String :=
  let cents : ℤ := round (q * 100)
  let a := cents.natAbs
  (if cents < 0 then "-" else "") ++ toString (a / 100) ++ "." ++
    (if a % 100 < 10 then "0" else "") ++ toString (a % 100)

/-- `ProfitEstimate` dataclass.  Its fields are `estimated_profit` (the
gross profit), `gas_cost`, `protocol_fee`, `net_profit`, `confidence` —
note there is no slippage field.  The wall-clock `timestamp` and
`calculation_time_ms` fields are omitted. -/
structure ProfitEstimate where
  estimated_profit : ℚ
  gas_cost : ℚ
  protocol_fee : ℚ
  net_profit : ℚ
  confidence : ℚ
  deriving Repr, DecidableEq

/-- `TradeValidation` dataclass. -/
structure TradeValidation where
  is_valid : Bool
  reason : String
  estimated_profit : ℚ
  net_profit : ℚ
  should_execute : Bool
  wait_time_seconds : ℚ
  deriving Repr, DecidableEq

/-- `RealTimeProfitCalculator._calculate_confidence`. -/
def calcConfidence (amount price_in price_out slippage : ℚ) : ℚ :=
  let c1 : ℚ := 1
  let c2 := if 50000 < amount then c1 - 2/10 else if 20000 < amount then c1 - 1/10 else c1
  let c3 := if 1/100 < slippage then c2 - 15/100
    else if 5/1000 < slippage then c2 - 5/100 else c2
  let price_ratio := |price_in - price_out| / max price_in price_out
  let c4 := if 1/10 < price_ratio then c3 - 1/10 else c3
  max (1/2) c4

/-- `RealTimeProfitCalculator.calculate_estimated_profit`, given the
network-derived quantities it awaits (`price_in`/`price_out` from the
price source, `gross_profit` from `_calculate_arbitrage_profit`,
`gas_cost` from `_calculate_gas_cost`): the protocol fee is
`amount_in * 0.0009`, the slippage cost `amount_in * slippage_tolerance`,
and `net_profit = gross - gas - fee - slippage`; the slippage cost is not
stored in the returned estimate. -/
def calculateEstimatedProfit (price_in price_out gross_profit gas_cost
    amount_in slippage_tolerance : ℚ) : ProfitEstimate :=
  let protocol_fee := amount_in * (9/10000)
  let slippage_cost := amount_in * slippage_tolerance
  let net_profit := gross_profit - gas_cost - protocol_fee - slippage_cost
  { estimated_profit := gross_profit
    gas_cost := gas_cost
    protocol_fee := protocol_fee
    net_profit := net_profit
    confidence := calcConfidence amount_in price_in price_out slippage_tolerance }

/-- `ProfitGuard._calculate_wait_time`. -/
def calculateWaitTime (current_profit : ℚ) : ℚ :=
  if current_profit < 100 then 300
  else if current_profit < 300 then 180
  else if current_profit < 500 then 60
  else 0

/-- `ProfitGuard.verify_profit_before_trade`, applied to the estimate the
calculator returned: reject when `net_profit` is under the threshold
(default `500`), then when `confidence < 0.7`, else approve. -/
def verifyProfitBeforeTrade (min_profit_threshold : ℚ) (estimate : ProfitEstimate) :
    TradeValidation :=
  if estimate.net_profit < min_profit_threshold then
    { is_valid := false
      reason := "Profit $" ++ pyFormat2f estimate.net_profit ++ " below threshold $" ++
        toString min_profit_threshold
      estimated_profit := estimate.estimated_profit
      net_profit := estimate.net_profit
      should_execute := false
      wait_time_seconds := calculateWaitTime estimate.net_profit }
  else if estimate.confidence < 7/10 then
    { is_valid := false
      reason := "Low confidence score: " ++ pyFormat2f estimate.confidence
      estimated_profit := estimate.estimated_profit
      net_profit := estimate.net_profit
      should_execute := false
      wait_time_seconds := 0 }
  else
    { is_valid := true
      reason := "Profit verified and exceeds threshold"
      estimated_profit := estimate.estimated_profit
      net_profit := estimate.net_profit
      should_execute := true
      wait_time_seconds := 0 }

/-! ## ProfitVerifier (src/utils/profit_verification.py) -/

/-- `ProfitCheck` dataclass: here every cost term, slippage included, is a
field of the result. -/
structure ProfitCheck where
  approved : Bool
  gross_profit : ℚ
  gas_cost : ℚ
  slippage_cost : ℚ
  loan_fee : ℚ
  net_profit : ℚ
  confidence : ℚ
  reasons : List String
  deriving Repr, DecidableEq

/-- `TradeParams` dataclass. -/
structure TradeParams where
  token_in : String
  token_out : String
  amount_in : ℚ
  expected_price_impact : ℚ
  gas_limit : ℕ
  priority_fee : ℕ
  slippage_tolerance : ℚ
  deriving Repr, DecidableEq

/-- The `config` dict read in `ProfitVerifier.__init__`, with the
documented `config.get` defaults. -/
structure PVConfig where
  min_profit : ℚ := 10
  min_profit_ratio : ℚ := 1/1000
  max_slippage : ℚ := 1/100
  gas_margin : ℚ := 13/10
  slippage_margin : ℚ := 3/2
  deriving Repr, DecidableEq

/-- Python's `str.upper`, expressed over the character list (extensionally
`String.toUpper`, but in a form the kernel evaluates). -/
def pyToUpper (s : String) : String := ⟨s.data.map Char.toUpper⟩

/-- `ProfitVerifier._get_price`: the placeholder price table keyed on the
upper-cased token (the cache stores exactly these values, so it is
transparent). -/
def pvGetPrice (token : String) : Option ℚ :=
  if pyToUpper token = "ETH" then some 1800
  else if pyToUpper token = "WETH" then some 1800
  else if pyToUpper token = "WBTC" then some 42000
  else if pyToUpper token = "USDC" then some 1
  else if pyToUpper token = "USDT" then some 1
  else if pyToUpper token = "DAI" then some 1
  else none

/-- `ProfitVerifier._calculate_gross_profit`. -/
def calcGrossProfit (trade : TradeParams) (price_in price_out : ℚ) : ℚ :=
  let amount_usd := trade.amount_in * price_in
  let expected_output := amount_usd / price_out
  let gross_profit := expected_output - amount_usd
  let g := if 0 < trade.expected_price_impact then
      gross_profit * (1 - trade.expected_price_impact)
    else gross_profit
  max 0 g

/-- `ProfitVerifier._get_base_fee`: a constant 20 gwei. -/
def pvBaseFee : ℚ := 20 * 10 ^ 9

/-- `ProfitVerifier._calculate_gas_cost` in USD (the ETH price comes from
the placeholder table, `some 1800`). -/
def calcGasCostUSD (cfg : PVConfig) (gas_limit priority_fee : ℕ) : ℚ :=
  let total_gas_price := pvBaseFee * cfg.gas_margin + (priority_fee : ℚ)
  let gas_cost_eth := ((gas_limit : ℚ) * total_gas_price) / 10 ^ 18
  gas_cost_eth * ((pvGetPrice "ETH").getD 0)

/-- `ProfitVerifier._calculate_slippage_cost`. -/
def calcSlippageCost (amount price slippage : ℚ) : ℚ := amount * price * slippage

/-- `ProfitVerifier._calculate_loan_fee` (`FLASH_LOAN_FEE = 0.0009`). -/
def calcLoanFee (amount price : ℚ) : ℚ := amount * price * (9/10000)

/-- The `simulation_result` dict: `success` may be absent (the code reads
it with different defaults in different places), `reverted` defaults to
`False`, `gas_used` may be absent; `error` is the message used in the
failure reason. -/
structure SimResult where
  success : Option Bool
  reverted : Bool
  gas_used : Option ℕ
  error : String
  deriving Repr, DecidableEq

/-- `ProfitVerifier._calculate_confidence`: base `0.5`, `+0.3` for a
truthy simulated success, `+0.1` when the simulated gas (truthy, i.e.
nonzero) is under 80% of the limit, `-0.2` for price impact above 5%,
clamped to `[0, 1]`. -/
def pvCalcConfidence (trade : TradeParams) (sim : Option SimResult) : ℚ :=
  let c0 : ℚ := 1/2
  let c1 := match sim with
    | none => c0
    | some r =>
      let a := if r.success = some true then c0 + 3/10 else c0
      match r.gas_used with
      | some g => if g ≠ 0 ∧ (g : ℚ) < (trade.gas_limit : ℚ) * (8/10) then a + 1/10 else a
      | none => a
  let c2 := if 5/100 < trade.expected_price_impact then c1 - 2/10 else c1
  max 0 (min 1 c2)

/-- The early-return `ProfitCheck` when a price lookup fails. -/
def failedPriceCheck : ProfitCheck :=
  { approved := false, gross_profit := 0, gas_cost := 0, slippage_cost := 0,
    loan_fee := 0, net_profit := 0, confidence := 0,
    reasons := ["Failed to get prices"] }

/-- The main branch of `ProfitVerifier.verify_profit` (steps 2-8), once
both prices have been fetched. -/
def pvMainCheck (cfg : PVConfig) (trade : TradeParams) (sim : Option SimResult)
    (price_in price_out : ℚ) : ProfitCheck :=
  let gross_profit := calcGrossProfit trade price_in price_out
  let gas_cost := calcGasCostUSD cfg trade.gas_limit trade.priority_fee
  let slippage_cost := calcSlippageCost trade.amount_in price_in
    (trade.slippage_tolerance * cfg.slippage_margin)
  let loan_fee := calcLoanFee trade.amount_in price_in
  let net_profit := gross_profit - gas_cost - slippage_cost - loan_fee
  let confidence := pvCalcConfidence trade sim
  let reasons1 := if net_profit < cfg.min_profit then
      ["Net profit $" ++ pyFormat2f net_profit ++ " below minimum $" ++
        toString cfg.min_profit]
    else []
  let profit_ratio := net_profit / (trade.amount_in * price_in)
  let reasons2 := reasons1 ++ (if profit_ratio < cfg.min_profit_ratio then
      ["Profit ratio " ++ pyFormat2f (profit_ratio * 100) ++ "% below minimum " ++
        toString (cfg.min_profit_ratio * 100) ++ "%"]
    else [])
  let reasons3 := reasons2 ++
    (if trade.amount_in * price_in * cfg.max_slippage < slippage_cost then
      ["Slippage cost too high: $" ++ pyFormat2f slippage_cost]
    else [])
  let reasons4 := reasons3 ++ (match sim with
    | none => []
    | some r =>
      (if r.success.getD true = false then ["Simulation failed: " ++ r.error] else []) ++
        (if r.reverted then ["Transaction would revert"] else []))
  { approved := reasons4.isEmpty
    gross_profit := gross_profit
    gas_cost := gas_cost
    slippage_cost := slippage_cost
    loan_fee := loan_fee
    net_profit := net_profit
    confidence := confidence
    reasons := reasons4 }

/-- `ProfitVerifier.verify_profit`.  Note the decision: `approved` holds
iff the `reasons` list stayed empty — the computed `confidence` is
reported but never compared against a minimum. -/
def verifyProfit (cfg : PVConfig) (trade : TradeParams) (sim : Option SimResult) :
    ProfitCheck :=
  match pvGetPrice trade.token_in, pvGetPrice trade.token_out with
  | some price_in, some price_out =>
    if price_in = 0 ∨ price_out = 0 then failedPriceCheck
    else pvMainCheck cfg trade sim price_in price_out
  | _, _ => failedPriceCheck

lemma pvGetPrice_pos (t : String) (p : ℚ) (h : pvGetPrice t = some p) : 0 < p := by
  simp only [pvGetPrice] at h
  split_ifs at h <;> simp_all <;> rw [← h] <;> norm_num

lemma verifyProfit_main (cfg : PVConfig) (trade : TradeParams) (sim : Option SimResult)
    (price_in price_out : ℚ)
    (hpin : pvGetPrice trade.token_in = some price_in)
    (hpout : pvGetPrice trade.token_out = some price_out) :
    verifyProfit cfg trade sim = pvMainCheck cfg trade sim price_in price_out := by
  have h1 : (0 : ℚ) < price_in := pvGetPrice_pos _ _ hpin
  have h2 : (0 : ℚ) < price_out := pvGetPrice_pos _ _ hpout
  simp only [verifyProfit, hpin, hpout]
  rw [if_neg]
  push_neg
  exact ⟨ne_of_gt h1, ne_of_gt h2⟩

lemma pvMainCheck_below (cfg : PVConfig) (trade : TradeParams) (sim : Option SimResult)
    (price_in price_out : ℚ)
    (h : (pvMainCheck cfg trade sim price_in price_out).net_profit < cfg.min_profit) :
    (pvMainCheck cfg trade sim price_in price_out).approved = false ∧
    ("Net profit $" ++
        pyFormat2f (pvMainCheck cfg trade sim price_in price_out).net_profit ++
        " below minimum $" ++ toString cfg.min_profit) ∈
      (pvMainCheck cfg trade sim price_in price_out).reasons := by
  simp only [pvMainCheck] at h ⊢
  rw [if_pos h]
  constructor
  · simp
  · simp

/-- **C2.** A trade whose computed net profit is strictly below the
minimum-profit threshold is rejected, with a reason that contains the word
"below": by `ProfitGuard.verify_profit_before_trade` (single `reason`
string) and by `ProfitVerifier.verify_profit` (a reason in `reasons`). -/
theorem below_threshold_rejected :
    (∀ (thr : ℚ) (est : ProfitEstimate), est.net_profit < thr →
      (verifyProfitBeforeTrade thr est).is_valid = false ∧
      ∃ pre post, (verifyProfitBeforeTrade thr est).reason = pre ++ "below" ++ post) ∧
    (∀ (cfg : PVConfig) (trade : TradeParams) (sim : Option SimResult)
        (price_in price_out : ℚ),
      pvGetPrice trade.token_in = some price_in →
      pvGetPrice trade.token_out = some price_out →
      (verifyProfit cfg trade sim).net_profit < cfg.min_profit →
      (verifyProfit cfg trade sim).approved = false ∧
      ∃ r ∈ (verifyProfit cfg trade sim).reasons,
        ∃ pre post, r = pre ++ "below" ++ post) := by
  constructor
  · intro thr est h
    refine ⟨by simp [verifyProfitBeforeTrade, h],
      "Profit $" ++ pyFormat2f est.net_profit ++ " ",
      " threshold $" ++ toString thr, ?_⟩
    have hv : (verifyProfitBeforeTrade thr est).reason =
        "Profit $" ++ pyFormat2f est.net_profit ++ " below threshold $" ++
          toString thr := by
      simp [verifyProfitBeforeTrade, h]
    rw [hv]
    have hlit : (" below threshold $" : String) = " " ++ "below" ++ " threshold $" := rfl
    rw [hlit]
    simp only [string_append_assoc]
  · intro cfg trade sim price_in price_out hpin hpout hnet
    rw [verifyProfit_main cfg trade sim price_in price_out hpin hpout] at hnet ⊢
    obtain ⟨happ, hmem⟩ := pvMainCheck_below cfg trade sim price_in price_out hnet
    refine ⟨happ, _, hmem, "Net profit $" ++
      pyFormat2f (pvMainCheck cfg trade sim price_in price_out).net_profit ++ " ",
      " minimum $" ++ toString cfg.min_profit, ?_⟩
    have hlit : (" below minimum $" : String) = " " ++ "below" ++ " minimum $" := rfl
    rw [hlit]
    simp only [string_append_assoc]

/-- Witness for C2: the spec's own example (`net_profit=$450` against the
`$500` threshold) through the guard, and a concrete ETH→USDC trade whose
net profit is negative through the verifier. -/
theorem below_threshold_rejected_witness :
    ((verifyProfitBeforeTrade 500 (calculateEstimatedProfit 1 1 500 50 0 0)).is_valid
        = false ∧
      ∃ pre post, (verifyProfitBeforeTrade 500
        (calculateEstimatedProfit 1 1 500 50 0 0)).reason = pre ++ "below" ++ post) ∧
    ((verifyProfit {} (TradeParams.mk "ETH" "USDC" 1 0 300000 0 0) none).approved
        = false ∧
      ∃ r ∈ (verifyProfit {} (TradeParams.mk "ETH" "USDC" 1 0 300000 0 0) none).reasons,
        ∃ pre post, r = pre ++ "below" ++ post) := by
  constructor
  · exact below_threshold_rejected.1 500 (calculateEstimatedProfit 1 1 500 50 0 0)
      (by norm_num [calculateEstimatedProfit])
  · apply below_threshold_rejected.2 {} _ none 1800 1 (by decide) (by decide)
    rw [verifyProfit_main {} _ none 1800 1 (by decide) (by decide)]
    have hprice : pvGetPrice "ETH" = some 1800 := by decide
    norm_num [pvMainCheck, calcGrossProfit, calcGasCostUSD, pvBaseFee, calcSlippageCost,
      calcLoanFee, hprice, max_def, min_def, PVConfig.min_profit]

/-- **C5 (counterexample).** `ProfitVerifier.verify_profit` does not
reject on low confidence: a verification with confidence `0.5 < 0.7`
can still return `approved=true` (a config with permissive profit
thresholds and a zero-slippage ETH→USDC trade). -/
theorem verify_profit_ignores_confidence :
    (verifyProfit (PVConfig.mk (-1000000) (-1) (1/100) (13/10) (3/2))
        (TradeParams.mk "ETH" "USDC" 1 0 300000 0 0) none).confidence < 7/10 ∧
    (verifyProfit (PVConfig.mk (-1000000) (-1) (1/100) (13/10) (3/2))
        (TradeParams.mk "ETH" "USDC" 1 0 300000 0 0) none).approved = true := by
  rw [verifyProfit_main _ _ none 1800 1 (by decide) (by decide)]
  have hprice : pvGetPrice "ETH" = some 1800 := by decide
  norm_num [pvMainCheck, calcGrossProfit, calcGasCostUSD, pvBaseFee, calcSlippageCost,
    calcLoanFee, pvCalcConfidence, hprice, max_def, min_def]

/-- **C5 (amended).** `ProfitGuard.verify_profit_before_trade` does
reject on low confidence: whenever the estimate's confidence is strictly
below `0.7`, the validation comes back `is_valid=false`, whatever the net
profit. -/
theorem profit_guard_low_confidence_rejected (thr : ℚ) (est : ProfitEstimate)
    (h : est.confidence < 7/10) :
    (verifyProfitBeforeTrade thr est).is_valid = false := by
  simp only [verifyProfitBeforeTrade]
  split_ifs <;> rfl

/-- Witness for the amended C5: a large, high-slippage trade gets
confidence `0.65` and is rejected. -/
theorem profit_guard_low_confidence_rejected_witness :
    (verifyProfitBeforeTrade 500
      (calculateEstimatedProfit 1 1 1000 0 60000 (2/100))).is_valid = false :=
  profit_guard_low_confidence_rejected 500
    (calculateEstimatedProfit 1 1 1000 0 60000 (2/100))
    (by norm_num [calculateEstimatedProfit, calcConfidence, max_def, min_def])

/-- **C8 (amended).** `ProfitVerifier.verify_profit` returns a
`ProfitCheck` whose fields satisfy
`net = gross - gas - slippage - loan_fee` exactly, every term a field;
`RealTimeProfitCalculator.calculate_estimated_profit` satisfies
`net = estimated - gas - protocol_fee - amount_in*slippage_tolerance`,
where the slippage term is computed but not stored as a field of
`ProfitEstimate`. -/
theorem profit_fields_equation :
    (∀ (cfg : PVConfig) (trade : TradeParams) (sim : Option SimResult),
      (verifyProfit cfg trade sim).net_profit =
        (verifyProfit cfg trade sim).gross_profit -
        (verifyProfit cfg trade sim).gas_cost -
        (verifyProfit cfg trade sim).slippage_cost -
        (verifyProfit cfg trade sim).loan_fee) ∧
    (∀ price_in price_out gross_profit gas_cost amount_in slippage_tolerance : ℚ,
      (calculateEstimatedProfit price_in price_out gross_profit gas_cost amount_in
          slippage_tolerance).net_profit =
        (calculateEstimatedProfit price_in price_out gross_profit gas_cost amount_in
          slippage_tolerance).estimated_profit -
        (calculateEstimatedProfit price_in price_out gross_profit gas_cost amount_in
          slippage_tolerance).gas_cost -
        (calculateEstimatedProfit price_in price_out gross_profit gas_cost amount_in
          slippage_tolerance).protocol_fee -
        amount_in * slippage_tolerance) := by
  constructor
  · intro cfg trade sim
    rcases hin : pvGetPrice trade.token_in with _ | price_in
    · simp [verifyProfit, hin, failedPriceCheck]
    · rcases hout : pvGetPrice trade.token_out with _ | price_out
      · simp [verifyProfit, hin, hout, failedPriceCheck]
      · rw [verifyProfit_main cfg trade sim price_in price_out hin hout]
        simp [pvMainCheck]
  · intro price_in price_out gross_profit gas_cost amount_in slippage_tolerance
    simp [calculateEstimatedProfit]

/-- **C8 (counterexample).** `ProfitEstimate` stores no slippage field, so
the equation cannot be read off the returned estimate: with a nonzero
slippage tolerance, `estimated_profit - gas_cost - protocol_fee`
differs from `net_profit` by exactly the unstored slippage cost ($5
here). -/
theorem profit_estimate_fields_not_closed :
    ((calculateEstimatedProfit 1800 1800 100 10 1000 (5/1000)).estimated_profit -
        (calculateEstimatedProfit 1800 1800 100 10 1000 (5/1000)).gas_cost -
        (calculateEstimatedProfit 1800 1800 100 10 1000 (5/1000)).protocol_fee ≠
      (calculateEstimatedProfit 1800 1800 100 10 1000 (5/1000)).net_profit) ∧
    (calculateEstimatedProfit 1800 1800 100 10 1000 (5/1000)).estimated_profit -
        (calculateEstimatedProfit 1800 1800 100 10 1000 (5/1000)).gas_cost -
        (calculateEstimatedProfit 1800 1800 100 10 1000 (5/1000)).protocol_fee -
        (calculateEstimatedProfit 1800 1800 100 10 1000 (5/1000)).net_profit = 5 := by
  norm_num [calculateEstimatedProfit]

/-! ## ConsensusProtection (src/utils/safety_system.py, lines 59-128) -/

/-- `SafetyLevel` enum. -/
inductive SafetyLevel where
  | SAFE
  | WARNING
  | DANGEROUS
  | REJECT
  deriving Repr, DecidableEq

/-- `SafetyCheckResult` dataclass (the heterogeneous `metadata` dict is
omitted; no claim reads it). -/
structure SafetyCheckResult where
  level : SafetyLevel
  passed : Bool
  issues : List String
  warnings : List String
  deriving Repr, DecidableEq

/-- `BlockState` dataclass. -/
structure BlockState where
  block_number : ℤ
  block_hash : String
  base_fee : ℚ
  timestamp : ℚ
  parent_hash : String
  deriving Repr, DecidableEq

/-- Mutable attributes of `ConsensusProtection` (`__init__`), with the
`config.get` defaults (`max_base_fee_spike=2.0`, `reorg_threshold=3`,
`timestamp_drift=12`). -/
structure ConsensusState where
  block_history : List BlockState
  last_block_hash : Option String
  base_fee_history : List ℚ
  max_base_fee_spike : ℚ
  reorg_threshold_blocks : ℤ
  timestamp_drift_window : ℚ
  deriving Repr, DecidableEq

/-- A fresh `ConsensusProtection` with the default config. -/
def ConsensusState.init : ConsensusState :=
  { block_history := []
    last_block_hash := none
    base_fee_history := []
    max_base_fee_spike := 2
    reorg_threshold_blocks := 3
    timestamp_drift_window := 12 }

/-- Appending to a `deque(maxlen=n)`: drop from the front once full. -/
def dequeAppend {α : Type} (maxlen : ℕ) (l : List α) (a : α) : List α :=
  let l2 := l ++ [a]
  l2.drop (l2.length - maxlen)

/-- Python truthiness of `self.last_block_hash` (an `Optional[str]`):
`None` and the empty string are falsy. -/
def pyTruthyStr : Option String → Bool
  | none => false
  | some s => !(s == "")

/-- A one-decimal rendering of a rational, standing in for CPython's
`f"{x:.1f}"` (the digits are never inspected by a claim). -/
def pyFormat1f (q : ℚ) : String :=
  let tenths : ℤ := round (q * 10)
  let a := tenths.natAbs
  (if tenths < 0 then "-" else "") ++ toString (a / 10) ++ "." ++ toString (a % 10)

/-- The tail of `ConsensusProtection.verify_block_state` once the reorg
check has passed: base-fee-spike and timestamp-drift warnings, then the
history update and the aggregated result (`issues` is empty on this
path). -/
def finishVerifyBlock (now : ℚ) (s : ConsensusState) (b : BlockState) :
    SafetyCheckResult × ConsensusState :=
  let issues : List String := []
  let warnings1 : List String :=
    match s.base_fee_history.getLast? with
    | some last_base_fee =>
      if last_base_fee * s.max_base_fee_spike < b.base_fee then
        ["BASE FEE SPIKE: " ++ pyFormat1f (b.base_fee / 10^9) ++ " gwei vs " ++
          pyFormat1f (last_base_fee / 10^9) ++ " gwei"]
      else []
    | none => []
  let time_diff := |now - b.timestamp|
  let warnings2 := warnings1 ++
    (if s.timestamp_drift_window * 2 < time_diff then
      ["TIMESTAMP DRIFT: " ++ toString time_diff ++ "s difference"]
    else [])
  let s2 := { s with
    block_history := dequeAppend 10 s.block_history b
    last_block_hash := some b.block_hash
    base_fee_history := dequeAppend 20 s.base_fee_history b.base_fee }
  let level := if issues ≠ [] then SafetyLevel.DANGEROUS
    else if warnings2 ≠ [] then SafetyLevel.WARNING else SafetyLevel.SAFE
  (⟨level, issues.length = 0, issues, warnings2⟩, s2)

/-- `ConsensusProtection.verify_block_state` at wall-clock time `now`,
returning the result together with the updated tracking state; `none`
models the `IndexError` Python raises when `last_block_hash` is truthy
but `block_history` is empty (unreachable from `init`). -/
def verifyBlockState (now : ℚ) (s : ConsensusState) (b : BlockState) :
    Option (SafetyCheckResult × ConsensusState) :=
  if pyTruthyStr s.last_block_hash ∧ some b.parent_hash ≠ s.last_block_hash then
    (s.block_history.getLast?).bind (fun tip =>
      if b.block_number - tip.block_number ≤ s.reorg_threshold_blocks then
        some (⟨SafetyLevel.REJECT, false,
          ["REORG DETECTED: Block " ++ toString b.block_number ++
            " parent doesn\x27t match previous"], []⟩, s)
      else some (finishVerifyBlock now s b))
  else some (finishVerifyBlock now s b)

/-- **C6.** Against a non-empty tracked history: a block whose
`parent_hash` differs from the tracked tip hash, within
`reorg_threshold` blocks of the tip, is REJECTed with an issue
mentioning a reorg (and the state is handed back unchanged); a block
whose `parent_hash` matches the tip is SAFE when there is no base-fee
spike and no timestamp drift. -/
theorem consensus_parent_hash_check (now : ℚ) (s : ConsensusState) (b : BlockState)
    (tipHash : String) (tip : BlockState)
    (hlast : s.last_block_hash = some tipHash) (hne : tipHash ≠ "")
    (htip : s.block_history.getLast? = some tip) :
    (b.parent_hash ≠ tipHash →
      b.block_number - tip.block_number ≤ s.reorg_threshold_blocks →
      verifyBlockState now s b =
        some (⟨SafetyLevel.REJECT, false,
          ["REORG DETECTED: Block " ++ toString b.block_number ++
            " parent doesn\x27t match previous"], []⟩, s) ∧
      ∃ pre post, ("REORG DETECTED: Block " ++ toString b.block_number ++
        " parent doesn\x27t match previous") = pre ++ "REORG" ++ post) ∧
    (b.parent_hash = tipHash →
      (∀ f, s.base_fee_history.getLast? = some f → b.base_fee ≤ f * s.max_base_fee_spike) →
      |now - b.timestamp| ≤ s.timestamp_drift_window * 2 →
      ∃ s2, verifyBlockState now s b = some (⟨SafetyLevel.SAFE, true, [], []⟩, s2)) := by
  constructor
  · intro hdiff hdepth
    have hcond : pyTruthyStr s.last_block_hash ∧ some b.parent_hash ≠ s.last_block_hash := by
      rw [hlast]
      refine ⟨by simp [pyTruthyStr, hne], by simpa using hdiff⟩
    refine ⟨?_, "", ?_, ?_⟩
    · rw [verifyBlockState, if_pos hcond, htip, Option.some_bind, if_pos hdepth]
    · exact " DETECTED: Block " ++ toString b.block_number ++
        " parent doesn\x27t match previous"
    · have : ("REORG DETECTED: Block " : String) = "" ++ "REORG" ++ " DETECTED: Block " :=
        rfl
      rw [this]
      simp only [string_append_assoc]
  · intro heq hfee hdrift
    have hcond : ¬ (pyTruthyStr s.last_block_hash ∧
        some b.parent_hash ≠ s.last_block_hash) := by
      rw [hlast, heq]
      simp
    refine ⟨(finishVerifyBlock now s b).2, ?_⟩
    rw [verifyBlockState, if_neg hcond]
    have hw1 : (match s.base_fee_history.getLast? with
        | some last_base_fee =>
          if last_base_fee * s.max_base_fee_spike < b.base_fee then
            ["BASE FEE SPIKE: " ++ pyFormat1f (b.base_fee / 10^9) ++ " gwei vs " ++
              pyFormat1f (last_base_fee / 10^9) ++ " gwei"]
          else []
        | none => ([] : List String)) = [] := by
      rcases hfl : s.base_fee_history.getLast? with _ | f
      · rfl
      · simp only
        rw [if_neg]
        push_neg
        exact hfee f hfl
    have hw2 : (if s.timestamp_drift_window * 2 < |now - b.timestamp| then
        ["TIMESTAMP DRIFT: " ++ toString (|now - b.timestamp|) ++ "s difference"]
      else ([] : List String)) = [] := by
      rw [if_neg]
      push_neg
      exact hdrift
    simp only [finishVerifyBlock, hw1, hw2]
    simp

/-- Witness for C6: from a tracker that has accepted block 100 with hash
"0xabc", block 101 claiming parent "0xzzz" is REJECTed, and block 101
claiming parent "0xabc" is SAFE. -/
theorem consensus_parent_hash_check_witness :
    (verifyBlockState 5
        ⟨[⟨100, "0xabc", 50, 0, "0xaaa"⟩], some "0xabc", [50], 2, 3, 12⟩
        ⟨101, "0xddd", 50, 5, "0xzzz"⟩ =
      some (⟨SafetyLevel.REJECT, false,
        ["REORG DETECTED: Block " ++ toString (101 : ℤ) ++
          " parent doesn\x27t match previous"], []⟩,
        ⟨[⟨100, "0xabc", 50, 0, "0xaaa"⟩], some "0xabc", [50], 2, 3, 12⟩) ∧
      ∃ pre post, ("REORG DETECTED: Block " ++ toString (101 : ℤ) ++
        " parent doesn\x27t match previous") = pre ++ "REORG" ++ post) ∧
    (∃ s2, verifyBlockState 5
        ⟨[⟨100, "0xabc", 50, 0, "0xaaa"⟩], some "0xabc", [50], 2, 3, 12⟩
        ⟨101, "0xddd", 50, 5, "0xabc"⟩ =
      some (⟨SafetyLevel.SAFE, true, [], []⟩, s2)) := by
  constructor
  · exact (consensus_parent_hash_check 5
      ⟨[⟨100, "0xabc", 50, 0, "0xaaa"⟩], some "0xabc", [50], 2, 3, 12⟩
      ⟨101, "0xddd", 50, 5, "0xzzz"⟩ "0xabc" ⟨100, "0xabc", 50, 0, "0xaaa"⟩
      rfl (by decide) rfl).1 (by decide) (by decide)
  · refine (consensus_parent_hash_check 5
      ⟨[⟨100, "0xabc", 50, 0, "0xaaa"⟩], some "0xabc", [50], 2, 3, 12⟩
      ⟨101, "0xddd", 50, 5, "0xabc"⟩ "0xabc" ⟨100, "0xabc", 50, 0, "0xaaa"⟩
      rfl (by decide) rfl).2 rfl ?_ (by norm_num)
    intro f hf
    simp only [List.getLast?_singleton, Option.some.injEq] at hf
    rw [← hf]
    norm_num

/-- **C10.** `verify_block_state` leaves the tracking state untouched when
it REJECTs (reorg path), and on every accepting return (`passed`,
including with warnings) appends the block to the history, updates the
tip hash, and records the base fee. -/
theorem consensus_reject_preserves_state (now : ℚ) (s : ConsensusState) (b : BlockState)
    (res : SafetyCheckResult) (s2 : ConsensusState)
    (h : verifyBlockState now s b = some (res, s2)) :
    (res.level = SafetyLevel.REJECT → s2 = s) ∧
    (res.passed = true →
      s2.block_history = dequeAppend 10 s.block_history b ∧
      s2.last_block_hash = some b.block_hash ∧
      s2.base_fee_history = dequeAppend 20 s.base_fee_history b.base_fee) := by
  have hfin : finishVerifyBlock now s b = (res, s2) →
      (res.level = SafetyLevel.REJECT → s2 = s) ∧
      (res.passed = true →
        s2.block_history = dequeAppend 10 s.block_history b ∧
        s2.last_block_hash = some b.block_hash ∧
        s2.base_fee_history = dequeAppend 20 s.base_fee_history b.base_fee) := by
    intro hf
    have hres : res = (finishVerifyBlock now s b).1 := by rw [hf]
    have hs2 : s2 = (finishVerifyBlock now s b).2 := by rw [hf]
    constructor
    · intro hlev
      rw [hres] at hlev
      simp only [finishVerifyBlock] at hlev
      split_ifs at hlev
    · intro _
      rw [hs2]
      simp [finishVerifyBlock]
  rw [verifyBlockState] at h
  split_ifs at h with h1
  · rcases htip : s.block_history.getLast? with _ | tip <;> rw [htip] at h
    · exact absurd h (by simp)
    · rw [Option.some_bind] at h
      split_ifs at h with h2
      · simp only [Option.some.injEq, Prod.mk.injEq] at h
        obtain ⟨hres, hs2⟩ := h
        constructor
        · intro _
          exact hs2.symm
        · intro hp
          rw [← hres] at hp
          simp at hp
      · exact hfin (by simpa using h)
  · exact hfin (by simpa using h)

/-- Witness for C10: the concrete reorg rejection above leaves the state
exactly as it was. -/
theorem consensus_reject_preserves_state_witness :
    (⟨[⟨100, "0xabc", 50, 0, "0xaaa"⟩], some "0xabc", [50], 2, 3, 12⟩ :
        ConsensusState) =
      ⟨[⟨100, "0xabc", 50, 0, "0xaaa"⟩], some "0xabc", [50], 2, 3, 12⟩ :=
  (consensus_reject_preserves_state 5
    ⟨[⟨100, "0xabc", 50, 0, "0xaaa"⟩], some "0xabc", [50], 2, 3, 12⟩
    ⟨101, "0xddd", 50, 5, "0xzzz"⟩
    ⟨SafetyLevel.REJECT, false,
      ["REORG DETECTED: Block " ++ toString (101 : ℤ) ++
        " parent doesn\x27t match previous"], []⟩
    ⟨[⟨100, "0xabc", 50, 0, "0xaaa"⟩], some "0xabc", [50], 2, 3, 12⟩
    (by decide)).1 rfl

end PowerSaver
